import Mathlib

/-!
# Nixie clock firmware: connectivity, time-sync and digit encoding

A shallow embedding of `Clock Production/src/main.cpp`.

The firmware talks to hardware and libraries through calls whose effect is
not visible in the source (`digitalWrite`, `WiFi.softAP`, `timeClient.update`,
...).  Every such call is recorded, in program order, as an `Event` in the
`trace` of a `World`; calls that only read (`WiFi.isConnected()`,
`timeClient.getMinutes()`, `localtime`, ...) leave no event: the value each of
them returns is an input of the embedded function, one input per call site.
-/

namespace NixieClock

/-! ## Constants of the sketch -/

/-- Line 14: `#define NUM_LEDS 4`. -/
def NUM_LEDS : Nat := 4

/-- Line 15: `#define DATA_PIN 1`. -/
def DATA_PIN : Nat := 1

/-- Line 22: `const char* APID`. -/
def APID : String := "NixeClock"

/-- Line 23: `const char* APSK`. -/
def APSK : String := "MinesBigger"

/-- Line 24: the value `preferences.getString` falls back to when a credential was never stored. -/
def GARBAGE_STRING : String :=
  "C!pbujKY2#4HXbcm5dY!WJX#ns29ff#vEDWmbZ9^d!QfBW@o%Trfj&sPENuVe&sx"

/-- Line 38: `const int minutes_pin[8]`. -/
def minutes_pin : List Nat := [18, 16, 15, 17, 9, 11, 12, 10]

/-- Line 39: `const int hours_pin[8]`. -/
def hours_pin : List Nat := [38, 36, 35, 37, 13, 21, 33, 14]

/-! ## Events and the world -/

/-- The two radio modes the sketch selects with `WiFi.mode`. -/
inductive WiFiMode where
  | WIFI_STA
  | WIFI_AP_STA
  deriving DecidableEq

/-- One call into the hardware or a library, with the arguments the sketch passes. -/
inductive Event where
  | serialBegin (baud : Nat)
  | serial (msg : String)
  | preferencesBegin (ns : String)
  | spiffsBegin
  | setenvTZ (tz : String)
  | tzset
  | pinModeOutput (pin : Nat)
  | digitalWrite (pin : Nat) (val : Int)
  | softAPsetHostname (name : String)
  | wifiMode (m : WiFiMode)
  | softAP (ssid psk : String)
  | softAPdisconnect
  | setHostname (name : String)
  | wifiBegin (ssid psk : String)
  | delay (ms : Nat)
  | timeClientBegin
  | timeClientUpdate
  | configTzTime (tz server : String)
  | serverOn (path : String)
  | serverBegin
  | send (code : Nat)
  | addLeds (dataPin numLeds : Nat)
  | fillSolidPurple (numLeds : Nat)
  | fastLEDShow
  deriving DecidableEq

/-- The mutable state the sketch can see: the global `softAPActive`, the two typed
    halves of the `Preferences` store, the millisecond clock, and the calls made so far. -/
structure World where
  softAPActive : Bool
  strings : String → Option String
  ints : String → Option Int
  millis : Nat
  trace : List Event

namespace World

/-- Record one call at the end of the trace. -/
def emit (e : Event) (w : World) : World :=
  { w with trace := w.trace ++ [e] }

/-- The call `preferences.getString(key, dflt)`: the stored value, or `dflt` when the key is absent. -/
def getString (w : World) (key dflt : String) : String :=
  (w.strings key).getD dflt

/-- The call `preferences.putString(key, value)`. -/
def putString (key value : String) (w : World) : World :=
  { w with strings := fun k => if k = key then some value else w.strings k }

/-- The call `preferences.putInt(key, value)`. -/
def putInt (key : String) (value : Int) (w : World) : World :=
  { w with ints := fun k => if k = key then some value else w.ints k }

/-- The call `delay(ms)`: the millisecond clock moves on by `ms`. -/
def delay (ms : Nat) (w : World) : World :=
  { (w.emit (Event.delay ms)) with millis := w.millis + ms }

end World

/-- The state at power-on: line 27 initialises `softAPActive` to 0; the store and the
    clock are whatever the board holds. -/
def boot (strings : String → Option String) (ints : String → Option Int) (millis : Nat) : World :=
  { softAPActive := false, strings := strings, ints := ints, millis := millis, trace := [] }

/-! ## Digit encoder (lines 41-67) -/

/-- Line 43: `int hoursT = hours / 10;` (C division truncates towards zero). -/
def hoursT (hours : Int) : Int := hours.tdiv 10

/-- Line 44: `int hoursO = hours % 10;`. -/
def hoursO (hours : Int) : Int := hours.tmod 10

/-- Line 45: `int minutesT = minutes / 10;`. -/
def minutesT (minutes : Int) : Int := minutes.tdiv 10

/-- Line 46: `int minutesO = minutes % 10;`. -/
def minutesO (minutes : Int) : Int := minutes.tmod 10

/-- The expression `(d >> k) & 1` that every `digitalWrite` of `printTime` passes as value. -/
def bit (d : Int) (k : Nat) : Int := Int.land (Int.shiftRight d k) 1

/-- Lines 41-67: `void printTime(int hours, int minutes)`. -/
def printTime (hours minutes : Int) (w : World) : World :=
  let w := w.emit (Event.digitalWrite 18 (bit (hoursT hours) 0))
  let w := w.emit (Event.digitalWrite 16 (bit (hoursT hours) 1))
  let w := w.emit (Event.digitalWrite 15 (bit (hoursT hours) 2))
  let w := w.emit (Event.digitalWrite 17 (bit (hoursT hours) 3))
  let w := w.emit (Event.digitalWrite 9 (bit (hoursO hours) 0))
  let w := w.emit (Event.digitalWrite 11 (bit (hoursO hours) 1))
  let w := w.emit (Event.digitalWrite 12 (bit (hoursO hours) 2))
  let w := w.emit (Event.digitalWrite 10 (bit (hoursO hours) 3))
  let w := w.emit (Event.digitalWrite 38 (bit (minutesT minutes) 0))
  let w := w.emit (Event.digitalWrite 36 (bit (minutesT minutes) 1))
  let w := w.emit (Event.digitalWrite 35 (bit (minutesT minutes) 2))
  let w := w.emit (Event.digitalWrite 37 (bit (minutesT minutes) 3))
  let w := w.emit (Event.digitalWrite 13 (bit (minutesO minutes) 0))
  let w := w.emit (Event.digitalWrite 21 (bit (minutesO minutes) 1))
  let w := w.emit (Event.digitalWrite 33 (bit (minutesO minutes) 2))
  let w := w.emit (Event.digitalWrite 14 (bit (minutesO minutes) 3))
  w

/-- The `(pin, value)` pairs of the `digitalWrite` calls in a trace, in order. -/
def writes (t : List Event) : List (Nat × Int) :=
  t.filterMap fun e =>
    match e with
    | Event.digitalWrite pin val => some (pin, val)
    | _ => none

/-- The pins given to `pinMode(_, OUTPUT)` in a trace, in order. -/
def outputPins (t : List Event) : List Nat :=
  t.filterMap fun e =>
    match e with
    | Event.pinModeOutput pin => some pin
    | _ => none

/-- The calls `printTime` makes when run on an otherwise empty world. -/
def printTimeCalls (hours minutes : Int) : List Event :=
  (printTime hours minutes (boot (fun _ => none) (fun _ => none) 0)).trace

/-! ## Time source and local time (library code the sketch calls) -/

/-- Modelled from the spec: the minute field of the time source, `(epoch mod 3600) / 60`;
    `NTPClient::getMinutes` belongs to the NTPClient library, not to the sketch. -/
def getMinutes (epoch : Nat) : Nat := (epoch % 3600) / 60

/-- Modelled from the spec: the second field of the time source, `epoch mod 60`;
    `NTPClient::getSeconds` belongs to the NTPClient library, not to the sketch. -/
def getSeconds (epoch : Nat) : Nat := epoch % 60

/-- Modelled from the spec: local time is the epoch shifted by the UTC offset the configured
    timezone has at that instant; `localtime` belongs to the C library, not to the sketch.
    This is the local second of the day. -/
def localSecondOfDay (epoch : Nat) (utcOffset : Int) : Int :=
  ((epoch : Int) + utcOffset) % 86400

/-- Modelled from the spec: the field `tm_hour` of `localtime` (see `localSecondOfDay`). -/
def tm_hour (epoch : Nat) (utcOffset : Int) : Int := localSecondOfDay epoch utcOffset / 3600

/-- Modelled from the spec: the field `tm_min` of `localtime` (see `localSecondOfDay`). -/
def tm_min (epoch : Nat) (utcOffset : Int) : Int := localSecondOfDay epoch utcOffset % 3600 / 60

/-- Modelled from the spec: the field `tm_sec` of `localtime` (see `localSecondOfDay`). -/
def tm_sec (epoch : Nat) (utcOffset : Int) : Int := localSecondOfDay epoch utcOffset % 60

/-! ## Boot (lines 70-227) -/

/-- What the calls that only read return during `setup`. -/
structure SetupObs where
  /-- Result of `WiFi.isConnected()` at the `k`-th evaluation of the `while` condition (line 109). -/
  poll : Nat → Bool
  /-- Result of `WiFi.isConnected()` after the wait (line 116). -/
  connected : Bool

/-- Lines 72-79: serial port, preferences, file system and timezone. -/
def setupStorage (w : World) : World :=
  let w := w.emit (Event.serialBegin 9600)
  let w := w.emit (Event.serial "Entered setup")
  let w := w.emit (Event.preferencesBegin "usermem")
  let w := w.emit (Event.serial "Begin EEPROM")
  let w := w.emit Event.spiffsBegin
  let w := w.emit (Event.setenvTZ (w.getString "timezone" "UTC"))
  w.emit Event.tzset

/-- Lines 82-85: `for (int i = 0; i < 8; i++)` setting both pin tables to OUTPUT. -/
def setupPins (w : World) : World :=
  (List.range 8).foldl
    (fun w i =>
      let w := w.emit (Event.pinModeOutput (hours_pin.getD i 0))
      w.emit (Event.pinModeOutput (minutes_pin.getD i 0)))
    w

/-- Lines 109-112: `while(!WiFi.isConnected() && millis() < 5000)`, entered at its `k`-th
    evaluation of the condition. -/
def waitForConnection (obs : SetupObs) (k : Nat) (w : World) : World :=
  if h : obs.poll k = false ∧ w.millis < 5000 then
    waitForConnection obs (k + 1) (World.delay 100 (w.emit (Event.serial ". ")))
  else
    w
termination_by 5000 - w.millis
decreasing_by
  simp only [World.delay, World.emit]
  omega

/-- Lines 89-128: start the access point, then try the stored credentials. -/
def setupWiFi (obs : SetupObs) (w : World) : World :=
  let w := w.emit (Event.serial "Start Access Point")
  let w := w.emit (Event.softAPsetHostname "nixeclock")
  let w := w.emit (Event.wifiMode WiFiMode.WIFI_AP_STA)
  let w := w.emit (Event.softAP APID APSK)
  let w := { w with softAPActive := true }
  if w.getString "WiFiSSID" GARBAGE_STRING = GARBAGE_STRING
      ∨ w.getString "WiFiPSK" GARBAGE_STRING = GARBAGE_STRING then
    w.emit (Event.serial "WiFi not configured. Skipping network connection.")
  else
    let w := w.emit (Event.serial "WiFi Configured. Attempting Connection.")
    let w := w.emit (Event.setHostname "niceclock")
    let w := w.emit (Event.wifiBegin (w.getString "WiFiSSID" GARBAGE_STRING)
      (w.getString "WiFiPSK" GARBAGE_STRING))
    let w := waitForConnection obs 0 w
    let w := w.emit (Event.serial "")
    if obs.connected then
      let w := w.emit (Event.serial "\nConnection Success. Tearing down AP.")
      let w := w.emit Event.softAPdisconnect
      let w := w.emit (Event.wifiMode WiFiMode.WIFI_STA)
      { w with softAPActive := false }
    else
      w.emit (Event.serial
        "\nConnection Failed. Please connect to the webportal and enter valid information.")

/-- Lines 131-132: `timeClient.begin(); timeClient.update();`. -/
def setupTime (w : World) : World :=
  let w := w.emit Event.timeClientBegin
  w.emit Event.timeClientUpdate

/-- Lines 135-226: register the eight routes, start the server, light the LEDs. -/
def setupServer (w : World) : World :=
  let w := w.emit (Event.serverOn "/")
  let w := w.emit (Event.serverOn "/milligram.min.css")
  let w := w.emit (Event.serverOn "/bootstrap.min.js")
  let w := w.emit (Event.serverOn "/moment.min.js")
  let w := w.emit (Event.serverOn "/moment-timezone.min.js")
  let w := w.emit (Event.serverOn "/updateWiFi")
  let w := w.emit (Event.serverOn "/updateBrightness")
  let w := w.emit (Event.serverOn "/setTZ")
  let w := w.emit Event.serverBegin
  let w := w.emit (Event.addLeds DATA_PIN NUM_LEDS)
  let w := w.emit (Event.fillSolidPurple NUM_LEDS)
  w.emit Event.fastLEDShow

/-- Lines 70-227: `void setup()`. -/
def setup (obs : SetupObs) (w : World) : World :=
  setupServer (setupTime (setupWiFi obs (setupPins (setupStorage w))))

/-! ## Main loop (lines 229-260) -/

/-- What the calls that only read return during one iteration of `loop`. -/
structure LoopObs where
  /-- Result of `WiFi.isConnected()` on line 231. -/
  connected1 : Bool
  /-- Result of `WiFi.isConnected()` on line 240. -/
  connected2 : Bool
  /-- Epoch of the time client when `getMinutes()` is called (line 250). -/
  epochMinutes : Nat
  /-- Epoch of the time client when `getSeconds()` is called (line 250). -/
  epochSeconds : Nat
  /-- Value of `timeClient.getEpochTime()` on line 255. -/
  epochNow : Nat
  /-- UTC offset `localtime` applies on line 256. -/
  utcOffset : Int

/-- Lines 231-237: tear the access point down once the client is connected. -/
def teardownOnConnect (obs : LoopObs) (w : World) : World :=
  if w.softAPActive && obs.connected1 then
    let w := w.emit (Event.serial "Internet Connected. Tearing down AP.")
    let w := w.emit Event.softAPdisconnect
    let w := w.emit (Event.wifiMode WiFiMode.WIFI_STA)
    let w := { w with softAPActive := false }
    w.emit Event.timeClientUpdate
  else w

/-- Lines 240-246: bring the access point back once the client connection is lost. -/
def rearmOnLoss (obs : LoopObs) (w : World) : World :=
  if !w.softAPActive && !obs.connected2 then
    let w := w.emit (Event.serial "Lost Internet. Restarting AP.")
    let w := w.emit (Event.softAPsetHostname "nixeclock")
    let w := w.emit (Event.wifiMode WiFiMode.WIFI_AP_STA)
    let w := w.emit (Event.softAP APID APSK)
    { w with softAPActive := true }
  else w

/-- Lines 231-246: the two connectivity checks, one after the other. -/
def connectivity (obs : LoopObs) (w : World) : World :=
  rearmOnLoss obs (teardownOnConnect obs w)

/-- Line 250: the condition `timeClient.getMinutes() == 0 && timeClient.getSeconds() == 0`. -/
def resyncDue (epochMinutes epochSeconds : Nat) : Bool :=
  getMinutes epochMinutes == 0 && getSeconds epochSeconds == 0

/-- Lines 250-253: the periodic resync. -/
def periodicResync (obs : LoopObs) (w : World) : World :=
  if resyncDue obs.epochMinutes obs.epochSeconds then
    let w := w.emit Event.timeClientUpdate
    World.delay 1000 w
  else w

/-- Lines 255-259: derive local time from the epoch and show it. -/
def render (obs : LoopObs) (w : World) : World :=
  printTime (tm_hour obs.epochNow obs.utcOffset) (tm_min obs.epochNow obs.utcOffset) w

/-- Lines 229-260: `void loop()`. -/
def loop (obs : LoopObs) (w : World) : World :=
  render obs (periodicResync obs (connectivity obs w))

/-- The first `n` iterations of `loop`, the `i`-th one reading `obs i`. -/
def run (obs : Nat → LoopObs) : Nat → World → World
  | 0, w => w
  | n + 1, w => loop (obs n) (run obs n w)

/-! ## Configuration portal handlers (lines 164-217) -/

/-- The POST parameters of a request, in the order received. -/
structure Request where
  postParams : List (String × String)

/-- The call `request->hasParam(name, true)`. -/
def Request.hasParam (r : Request) (name : String) : Bool :=
  r.postParams.any fun p => p.1 == name

/-- The call `request->getParam(name, true)->value()`: the value of the first such parameter. -/
def Request.getParam (r : Request) (name : String) : String :=
  ((r.postParams.find? fun p => p.1 == name).map Prod.snd).getD ""

/-- Lines 164-184: the `/updateWiFi` handler. -/
def updateWiFi (request : Request) (w : World) : World :=
  let w := w.emit (Event.serial "Request Received")
  let w :=
    if request.hasParam "ssid" && request.hasParam "psk" then
      let ssid := request.getParam "ssid"
      let psk := request.getParam "psk"
      if ssid ≠ "" then
        let w := w.emit (Event.serial ("Updating WiFi Credentials to SSID: " ++ ssid))
        let w := w.putString "WiFiSSID" ssid
        let w := w.putString "WiFiPSK" psk
        let w := w.emit (Event.setHostname "niceclock")
        w.emit (Event.wifiBegin (w.getString "WiFiSSID" GARBAGE_STRING)
          (w.getString "WiFiPSK" GARBAGE_STRING))
      else w
    else w
  w.emit (Event.send 200)

/-- The C `isspace` in the default locale: the space and the five controls 9..13
    (tab, line feed, vertical tab, form feed, carriage return). -/
def isspace (c : Char) : Bool := c.toNat = 32 || (9 ≤ c.toNat && c.toNat ≤ 13)

/-- The digits at the head of a character list, read as a decimal number after `acc`. -/
def leadingDigits : List Char → Nat → Nat
  | [], acc => acc
  | c :: cs, acc =>
    if 48 ≤ c.toNat && c.toNat ≤ 57 then leadingDigits cs (10 * acc + (c.toNat - 48)) else acc

/-- The range of the 32-bit `long` of the target: values beyond it saturate at `LONG_MIN`
    and `LONG_MAX`, as the C library's `strtol` does. -/
def saturateLong (v : Int) : Int :=
  if v < -2147483648 then -2147483648 else if 2147483647 < v then 2147483647 else v

/-- Arduino `String::toInt()`, which is `atol` of the text (`strtol` in base 10): skip leading
    white space, read an optional sign and the decimal digits that follow, saturating at the
    32-bit range; text with no digit at that place gives 0.
    It is core library code, not part of the sketch; the handler below takes it as a parameter. -/
def arduinoToInt (s : String) : Int :=
  match s.toList.dropWhile isspace with
  | '-' :: cs => saturateLong (-(leadingDigits cs 0 : Int))
  | '+' :: cs => saturateLong (leadingDigits cs 0 : Int)
  | cs => saturateLong (leadingDigits cs 0 : Int)

/-- Lines 187-201: the `/updateBrightness` handler, over the library's `String::toInt`. -/
def updateBrightness (toInt : String → Int) (request : Request) (w : World) : World :=
  let w := w.emit (Event.serial "Request Received")
  let w :=
    if request.hasParam "minBrightnessSlider" && request.hasParam "maxBrightnessSlider" then
      let min := toInt (request.getParam "minBrightnessSlider")
      let max := toInt (request.getParam "maxBrightnessSlider")
      let w := w.putInt "minBrightness" min
      w.putInt "maxBrightness" max
    else w
  w.emit (Event.send 200)

/-- Lines 204-217: the `/setTZ` handler. -/
def setTZ (timezone : Option String) (w : World) : World :=
  let w := w.emit (Event.serial "Request Received")
  let w :=
    match timezone with
    | some tz =>
      let w := w.putString "timezone" tz
      let w := w.emit (Event.configTzTime tz "pool.ntp.org")
      w.emit Event.timeClientUpdate
    | none => w
  w.emit (Event.send 200)


/-- The four digits `printTime` computes, in the order it writes them out. -/
def digits (hours minutes : Int) : List Int :=
  [hoursT hours, hoursO hours, minutesT minutes, minutesO minutes]

/-- The calls `setup` makes before it looks at the stored credentials (lines 72-93). -/
def setupOpening (w : World) : List Event :=
  [Event.serialBegin 9600, Event.serial "Entered setup", Event.preferencesBegin "usermem",
   Event.serial "Begin EEPROM", Event.spiffsBegin,
   Event.setenvTZ (w.getString "timezone" "UTC"), Event.tzset,
   Event.pinModeOutput 38, Event.pinModeOutput 18, Event.pinModeOutput 36,
   Event.pinModeOutput 16, Event.pinModeOutput 35, Event.pinModeOutput 15,
   Event.pinModeOutput 37, Event.pinModeOutput 17, Event.pinModeOutput 13,
   Event.pinModeOutput 9, Event.pinModeOutput 21, Event.pinModeOutput 11,
   Event.pinModeOutput 33, Event.pinModeOutput 12, Event.pinModeOutput 14,
   Event.pinModeOutput 10,
   Event.serial "Start Access Point", Event.softAPsetHostname "nixeclock",
   Event.wifiMode WiFiMode.WIFI_AP_STA, Event.softAP APID APSK]

/-- The calls `setup` makes after the WiFi section (lines 131-226). -/
def setupClosing : List Event :=
  [Event.timeClientBegin, Event.timeClientUpdate,
   Event.serverOn "/", Event.serverOn "/milligram.min.css", Event.serverOn "/bootstrap.min.js",
   Event.serverOn "/moment.min.js", Event.serverOn "/moment-timezone.min.js",
   Event.serverOn "/updateWiFi", Event.serverOn "/updateBrightness", Event.serverOn "/setTZ",
   Event.serverBegin, Event.addLeds DATA_PIN NUM_LEDS, Event.fillSolidPurple NUM_LEDS,
   Event.fastLEDShow]

/-- The calls of the WiFi section once the wait is over (lines 113-127). -/
def setupOutcome (connected : Bool) : List Event :=
  if connected then
    [Event.serial "", Event.serial "\nConnection Success. Tearing down AP.",
     Event.softAPdisconnect, Event.wifiMode WiFiMode.WIFI_STA]
  else
    [Event.serial "", Event.serial
      "\nConnection Failed. Please connect to the webportal and enter valid information."]

/-- A store holding the credentials ("HomeNet", "secret123"). -/
def homeNet (key : String) : Option String :=
  if key = "WiFiSSID" then some "HomeNet"
  else if key = "WiFiPSK" then some "secret123"
  else none

/-- A world in which the access point is up and nothing else has happened. -/
def apOnly : World :=
  { softAPActive := true, strings := fun _ => none, ints := fun _ => none, millis := 0,
    trace := [] }

/-- A store whose brightness limits are 50 and 200. -/
def brightness50to200 (key : String) : Option Int :=
  if key = "minBrightness" then some 50
  else if key = "maxBrightness" then some 200
  else none

/-- A world whose stored brightness limits are 50 and 200. -/
def dimmed : World :=
  { softAPActive := true, strings := fun _ => none, ints := brightness50to200, millis := 0,
    trace := [] }

/-- A brightness request whose two slider values are not numbers. -/
def notNumbers : Request :=
  { postParams := [("minBrightnessSlider", "abc"), ("maxBrightnessSlider", "xyz")] }

/-- A brightness request with the slider values 10 and 90. -/
def sliders10to90 : Request :=
  { postParams := [("minBrightnessSlider", "10"), ("maxBrightnessSlider", "90")] }

/-- A credential request with an empty SSID. -/
def emptySsid : Request :=
  { postParams := [("ssid", ""), ("psk", "secret123")] }

/-- The pins `printTime` writes, in the order it writes them. -/
def printTimePins (hours minutes : Int) : List Nat :=
  (writes (printTimeCalls hours minutes)).map Prod.fst

/-- The level a pin is left at by a trace: the value of the last `digitalWrite` to it. -/
def pinLevel (t : List Event) (pin : Nat) : Option Int :=
  (writes t).reverse.lookup pin

/-! ## Helper lemmas -/

theorem printTime_trace (hours minutes : Int) (w : World) :
    (printTime hours minutes w).trace = w.trace ++ printTimeCalls hours minutes := by
  simp [printTime, printTimeCalls, World.emit, boot]

theorem printTime_softAPActive (hours minutes : Int) (w : World) :
    (printTime hours minutes w).softAPActive = w.softAPActive := by
  simp [printTime, World.emit]

theorem bit_sum (d : Int) (h0 : 0 ≤ d) (h9 : d ≤ 9) :
    bit d 0 + 2 * bit d 1 + 4 * bit d 2 + 8 * bit d 3 = d := by
  interval_cases d <;> decide

theorem digit_ranges (hours minutes : Int) (hh0 : 0 ≤ hours) (hh : hours ≤ 23)
    (hm0 : 0 ≤ minutes) (hm : minutes ≤ 59) :
    (0 ≤ hoursT hours ∧ hoursT hours ≤ 2) ∧ (0 ≤ hoursO hours ∧ hoursO hours ≤ 9) ∧
    (0 ≤ minutesT minutes ∧ minutesT minutes ≤ 5) ∧
    (0 ≤ minutesO minutes ∧ minutesO minutes ≤ 9) ∧
    10 * hoursT hours + hoursO hours = hours ∧
    10 * minutesT minutes + minutesO minutes = minutes := by
  simp only [hoursT, hoursO, minutesT, minutesO]
  rw [Int.tdiv_eq_ediv hh0 (by decide), Int.tdiv_eq_ediv hm0 (by decide),
    Int.tmod_eq_emod hh0 (by decide), Int.tmod_eq_emod hm0 (by decide)]
  omega

theorem periodicResync_softAPActive (obs : LoopObs) (w : World) :
    (periodicResync obs w).softAPActive = w.softAPActive := by
  unfold periodicResync
  split <;> simp [World.delay, World.emit]

theorem connectivity_softAPActive (obs : LoopObs) (w : World) :
    (connectivity obs w).softAPActive =
      if w.softAPActive && obs.connected1 then !obs.connected2
      else (w.softAPActive || !obs.connected2) := by
  cases hs : w.softAPActive <;> cases h1 : obs.connected1 <;> cases h2 : obs.connected2 <;>
    simp [connectivity, teardownOnConnect, rearmOnLoss, World.emit, hs, h1, h2]

theorem loop_softAPActive (obs : LoopObs) (w : World) :
    (loop obs w).softAPActive =
      if w.softAPActive && obs.connected1 then !obs.connected2
      else (w.softAPActive || !obs.connected2) := by
  simp only [loop, render, printTime_softAPActive, periodicResync_softAPActive,
    connectivity_softAPActive]

theorem waitForConnection_spec (obs : SetupObs) (k : Nat) (w : World) :
    ∃ evs, (waitForConnection obs k w).trace = w.trace ++ evs ∧
      (∀ e ∈ evs, e = Event.serial ". " ∨ e = Event.delay 100) ∧
      (waitForConnection obs k w).softAPActive = w.softAPActive ∧
      (waitForConnection obs k w).strings = w.strings ∧
      (waitForConnection obs k w).ints = w.ints := by
  induction k, w using waitForConnection.induct obs with
  | case1 k w h ih =>
    obtain ⟨evs, ht, he, hs, hstr, hint⟩ := ih
    rw [waitForConnection, dif_pos h]
    refine ⟨Event.serial ". " :: Event.delay 100 :: evs, ?_, ?_, ?_, ?_, ?_⟩
    · rw [ht]; simp [World.delay, World.emit]
    · intro e hmem
      simp only [List.mem_cons] at hmem
      rcases hmem with h1 | h1 | h1
      · exact Or.inl h1
      · exact Or.inr h1
      · exact he e h1
    · rw [hs]; rfl
    · rw [hstr]; rfl
    · rw [hint]; rfl
  | case2 k w h =>
    rw [waitForConnection, dif_neg h]
    exact ⟨[], by simp, by simp, rfl, rfl, rfl⟩

theorem setupStorage_strings (w : World) : (setupStorage w).strings = w.strings := by
  simp [setupStorage, World.emit]

theorem setupPins_strings (w : World) : (setupPins w).strings = w.strings := by
  simp [setupPins, World.emit, List.range, List.range.loop]

theorem setupPins_setupStorage_getString (w : World) (key dflt : String) :
    (setupPins (setupStorage w)).getString key dflt = w.getString key dflt := by
  simp [World.getString, setupPins_strings, setupStorage_strings]

theorem setupPins_setupStorage_trace (w : World) :
    (setupPins (setupStorage w)).trace = w.trace ++
      [Event.serialBegin 9600, Event.serial "Entered setup", Event.preferencesBegin "usermem",
       Event.serial "Begin EEPROM", Event.spiffsBegin,
       Event.setenvTZ (w.getString "timezone" "UTC"), Event.tzset,
       Event.pinModeOutput 38, Event.pinModeOutput 18, Event.pinModeOutput 36,
       Event.pinModeOutput 16, Event.pinModeOutput 35, Event.pinModeOutput 15,
       Event.pinModeOutput 37, Event.pinModeOutput 17, Event.pinModeOutput 13,
       Event.pinModeOutput 9, Event.pinModeOutput 21, Event.pinModeOutput 11,
       Event.pinModeOutput 33, Event.pinModeOutput 12, Event.pinModeOutput 14,
       Event.pinModeOutput 10] := by
  simp [setupPins, setupStorage, World.emit, World.getString, hours_pin, minutes_pin,
    List.range, List.range.loop]

theorem setupWiFi_unconfigured (obs : SetupObs) (w : World)
    (h : w.getString "WiFiSSID" GARBAGE_STRING = GARBAGE_STRING
      ∨ w.getString "WiFiPSK" GARBAGE_STRING = GARBAGE_STRING) :
    (setupWiFi obs w).softAPActive = true ∧
    (setupWiFi obs w).trace = w.trace ++
      [Event.serial "Start Access Point", Event.softAPsetHostname "nixeclock",
       Event.wifiMode WiFiMode.WIFI_AP_STA, Event.softAP APID APSK,
       Event.serial "WiFi not configured. Skipping network connection."] := by
  unfold setupWiFi
  simp only []
  rw [if_pos (by simpa [World.getString, World.emit] using h)]
  simp [World.emit]

theorem setupWiFi_configured (obs : SetupObs) (w : World)
    (h : ¬ (w.getString "WiFiSSID" GARBAGE_STRING = GARBAGE_STRING
      ∨ w.getString "WiFiPSK" GARBAGE_STRING = GARBAGE_STRING)) :
    (setupWiFi obs w).softAPActive = !obs.connected ∧
    ∃ evs, (∀ e ∈ evs, e = Event.serial ". " ∨ e = Event.delay 100) ∧
      (setupWiFi obs w).trace = w.trace ++
        [Event.serial "Start Access Point", Event.softAPsetHostname "nixeclock",
         Event.wifiMode WiFiMode.WIFI_AP_STA, Event.softAP APID APSK,
         Event.serial "WiFi Configured. Attempting Connection.", Event.setHostname "niceclock",
         Event.wifiBegin (w.getString "WiFiSSID" GARBAGE_STRING)
           (w.getString "WiFiPSK" GARBAGE_STRING)] ++ evs ++ setupOutcome obs.connected := by
  unfold setupWiFi
  simp only []
  rw [if_neg (by simpa [World.getString, World.emit] using h)]
  generalize hw0 : World.emit (Event.wifiBegin _ _) _ = w0
  obtain ⟨evs, ht, he, hs, -, -⟩ := waitForConnection_spec obs 0 w0
  have hw0t : w0.trace = w.trace ++
      [Event.serial "Start Access Point", Event.softAPsetHostname "nixeclock",
       Event.wifiMode WiFiMode.WIFI_AP_STA, Event.softAP APID APSK,
       Event.serial "WiFi Configured. Attempting Connection.", Event.setHostname "niceclock",
       Event.wifiBegin (w.getString "WiFiSSID" GARBAGE_STRING)
         (w.getString "WiFiPSK" GARBAGE_STRING)] := by
    rw [← hw0]
    simp [World.emit, World.getString]
  have hw0s : w0.softAPActive = true := by
    rw [← hw0]
    simp [World.emit]
  cases hc : obs.connected
  · refine ⟨by simp [World.emit, hs, hw0s], evs, he, ?_⟩
    simp [World.emit, ht, hw0t, setupOutcome]
  · refine ⟨by simp [World.emit], evs, he, ?_⟩
    simp [World.emit, ht, hw0t, setupOutcome]

theorem setup_softAPActive (obs : SetupObs) (w : World) :
    (setup obs w).softAPActive = (setupWiFi obs (setupPins (setupStorage w))).softAPActive := by
  simp [setup, setupServer, setupTime, World.emit]

theorem setup_trace (obs : SetupObs) (w : World) :
    (setup obs w).trace = (setupWiFi obs (setupPins (setupStorage w))).trace ++ setupClosing := by
  simp [setup, setupServer, setupTime, setupClosing, World.emit]

theorem setup_unconfigured (obs : SetupObs) (w : World)
    (h : w.getString "WiFiSSID" GARBAGE_STRING = GARBAGE_STRING
      ∨ w.getString "WiFiPSK" GARBAGE_STRING = GARBAGE_STRING) :
    (setup obs w).softAPActive = true ∧
    (setup obs w).trace = w.trace ++ setupOpening w ++
      [Event.serial "WiFi not configured. Skipping network connection."] ++ setupClosing := by
  have h' := setupWiFi_unconfigured obs (setupPins (setupStorage w))
    (by simpa only [setupPins_setupStorage_getString] using h)
  rw [setup_softAPActive, setup_trace, h'.2, setupPins_setupStorage_trace]
  exact ⟨h'.1, by simp [setupOpening]⟩

theorem setup_configured (obs : SetupObs) (w : World)
    (h : ¬ (w.getString "WiFiSSID" GARBAGE_STRING = GARBAGE_STRING
      ∨ w.getString "WiFiPSK" GARBAGE_STRING = GARBAGE_STRING)) :
    (setup obs w).softAPActive = !obs.connected ∧
    ∃ evs, (∀ e ∈ evs, e = Event.serial ". " ∨ e = Event.delay 100) ∧
      (setup obs w).trace = w.trace ++ setupOpening w ++
        [Event.serial "WiFi Configured. Attempting Connection.", Event.setHostname "niceclock",
         Event.wifiBegin (w.getString "WiFiSSID" GARBAGE_STRING)
           (w.getString "WiFiPSK" GARBAGE_STRING)] ++ evs ++
        setupOutcome obs.connected ++ setupClosing := by
  obtain ⟨hf, evs, he, ht⟩ := setupWiFi_configured obs (setupPins (setupStorage w))
    (by simpa only [setupPins_setupStorage_getString] using h)
  rw [setup_softAPActive, setup_trace, ht, setupPins_setupStorage_trace]
  refine ⟨hf, evs, he, ?_⟩
  simp only [setupPins_setupStorage_getString]
  simp [setupOpening]

theorem loop_trace (obs : LoopObs) (w : World) :
    (loop obs w).trace = (connectivity obs w).trace ++
      (if resyncDue obs.epochMinutes obs.epochSeconds then
        [Event.timeClientUpdate, Event.delay 1000] else []) ++
      printTimeCalls (tm_hour obs.epochNow obs.utcOffset) (tm_min obs.epochNow obs.utcOffset) := by
  simp only [loop, render, printTime_trace, periodicResync]
  split <;> simp [World.delay, World.emit]

theorem connectivity_trace_idle (obs : LoopObs) (w : World)
    (hs : w.softAPActive = true) (h1 : obs.connected1 = false) :
    (connectivity obs w).trace = w.trace := by
  simp [connectivity, teardownOnConnect, rearmOnLoss, hs, h1]

theorem connectivity_trace_same (c : Bool) (obs : LoopObs) (w : World)
    (h1 : obs.connected1 = c) (h2 : obs.connected2 = c) :
    (connectivity obs w).trace = w.trace ++
      (if w.softAPActive && c then
        [Event.serial "Internet Connected. Tearing down AP.", Event.softAPdisconnect,
         Event.wifiMode WiFiMode.WIFI_STA, Event.timeClientUpdate]
      else if !w.softAPActive && !c then
        [Event.serial "Lost Internet. Restarting AP.", Event.softAPsetHostname "nixeclock",
         Event.wifiMode WiFiMode.WIFI_AP_STA, Event.softAP APID APSK]
      else []) := by
  cases hs : w.softAPActive <;> cases c <;>
    simp [connectivity, teardownOnConnect, rearmOnLoss, hs, h1, h2, World.emit]

theorem teardownOnConnect_spec (obs : LoopObs) (w : World)
    (hs : w.softAPActive = true) (h1 : obs.connected1 = true) :
    (teardownOnConnect obs w).softAPActive = false ∧
    (teardownOnConnect obs w).trace = w.trace ++
      [Event.serial "Internet Connected. Tearing down AP.", Event.softAPdisconnect,
       Event.wifiMode WiFiMode.WIFI_STA, Event.timeClientUpdate] := by
  simp [teardownOnConnect, hs, h1, World.emit]

theorem connectivity_trace_teardown (obs : LoopObs) (w : World)
    (hs : w.softAPActive = true) (h1 : obs.connected1 = true) :
    (connectivity obs w).trace = w.trace ++
      [Event.serial "Internet Connected. Tearing down AP.", Event.softAPdisconnect,
       Event.wifiMode WiFiMode.WIFI_STA, Event.timeClientUpdate] ++
      (if obs.connected2 then []
       else [Event.serial "Lost Internet. Restarting AP.", Event.softAPsetHostname "nixeclock",
         Event.wifiMode WiFiMode.WIFI_AP_STA, Event.softAP APID APSK]) := by
  cases h2 : obs.connected2 <;>
    simp [connectivity, teardownOnConnect, rearmOnLoss, hs, h1, h2, World.emit]

theorem softAPdisconnect_not_mem_printTimeCalls (hours minutes : Int) :
    Event.softAPdisconnect ∉ printTimeCalls hours minutes := by
  simp [printTimeCalls, printTime, World.emit, boot]

theorem softAPdisconnect_not_mem_setupOpening (w : World) :
    Event.softAPdisconnect ∉ setupOpening w := by
  simp [setupOpening]

theorem softAPdisconnect_not_mem_setupClosing : Event.softAPdisconnect ∉ setupClosing := by
  simp [setupClosing]

theorem resyncDue_iff (e : Nat) : resyncDue e e = true ↔ e % 3600 = 0 := by
  simp only [resyncDue, getMinutes, getSeconds, Bool.and_eq_true, beq_iff_eq]
  omega

theorem timeClientUpdate_not_mem_printTimeCalls (hours minutes : Int) :
    Event.timeClientUpdate ∉ printTimeCalls hours minutes := by
  simp [printTimeCalls, printTime, World.emit, boot]

/-! ## Digit encoder -/

/-- C1: for hours in 0..23 and minutes in 0..59 the four digits `printTime` computes lie in
    0..2, 0..9, 0..5 and 0..9, and `10*hoursT + hoursO = hours`,
    `10*minutesT + minutesO = minutes`. -/
theorem printTime_digits_roundtrip (hours minutes : Int)
    (hh : 0 ≤ hours ∧ hours ≤ 23) (hm : 0 ≤ minutes ∧ minutes ≤ 59) :
    (0 ≤ hoursT hours ∧ hoursT hours ≤ 2) ∧ (0 ≤ hoursO hours ∧ hoursO hours ≤ 9) ∧
    (0 ≤ minutesT minutes ∧ minutesT minutes ≤ 5) ∧
    (0 ≤ minutesO minutes ∧ minutesO minutes ≤ 9) ∧
    10 * hoursT hours + hoursO hours = hours ∧
    10 * minutesT minutes + minutesO minutes = minutes :=
  digit_ranges hours minutes hh.1 hh.2 hm.1 hm.2

theorem printTime_digits_roundtrip_witness :
    (0 ≤ hoursT 23 ∧ hoursT 23 ≤ 2) ∧ (0 ≤ hoursO 23 ∧ hoursO 23 ≤ 9) ∧
    (0 ≤ minutesT 59 ∧ minutesT 59 ≤ 5) ∧ (0 ≤ minutesO 59 ∧ minutesO 59 ≤ 9) ∧
    10 * hoursT 23 + hoursO 23 = 23 ∧ 10 * minutesT 59 + minutesO 59 = 59 :=
  printTime_digits_roundtrip 23 59 (by decide) (by decide)

/-- C8: for hours in 0..23 and minutes in 0..59, `printTime` adds exactly 16 `digitalWrite`
    calls to the trace; the `k`-th call of the `g`-th group of four carries bit `k` of the
    `g`-th digit, `(d >> k) & 1`, and the four values of a group give the digit back:
    `line0 + 2*line1 + 4*line2 + 8*line3 = d`. -/
theorem printTime_lines_lsb_first (hours minutes : Int)
    (hh : 0 ≤ hours ∧ hours ≤ 23) (hm : 0 ≤ minutes ∧ minutes ≤ 59) (w : World) :
    ∃ line : Nat → Int,
      writes (printTime hours minutes w).trace = writes w.trace ++
        [(18, line 0), (16, line 1), (15, line 2), (17, line 3),
         (9, line 4), (11, line 5), (12, line 6), (10, line 7),
         (38, line 8), (36, line 9), (35, line 10), (37, line 11),
         (13, line 12), (21, line 13), (33, line 14), (14, line 15)] ∧
      (printTime hours minutes w).trace.length = w.trace.length + 16 ∧
      ∀ g, g < 4 → ∀ d, (digits hours minutes)[g]? = some d →
        (∀ k, k < 4 → line (4 * g + k) = Int.land (Int.shiftRight d k) 1) ∧
        line (4 * g) + 2 * line (4 * g + 1) + 4 * line (4 * g + 2) + 8 * line (4 * g + 3) = d := by
  obtain ⟨hT, hO, mT, mO, -, -⟩ := digit_ranges hours minutes hh.1 hh.2 hm.1 hm.2
  refine ⟨fun i => bit ((digits hours minutes).getD (i / 4) 0) (i % 4), ?_, ?_, ?_⟩
  · simp [printTime_trace, printTimeCalls, printTime, World.emit, boot, writes, digits]
  · simp [printTime_trace, printTimeCalls, printTime, World.emit, boot]
  · intro g hg d hd
    have h1 := bit_sum _ hT.1 (by omega)
    have h2 := bit_sum _ hO.1 hO.2
    have h3 := bit_sum _ mT.1 (by omega)
    have h4 := bit_sum _ mO.1 mO.2
    interval_cases g <;> simp [digits] at hd <;> subst hd <;> refine ⟨?_, ?_⟩
    all_goals first
      | (intro k hk; interval_cases k <;> simp [digits, bit])
      | (simpa [digits] using ‹_›)

theorem printTime_lines_lsb_first_witness :
    ∃ line : Nat → Int,
      writes (printTime 23 59 (boot (fun _ => none) (fun _ => none) 0)).trace =
        writes (boot (fun _ => none) (fun _ => none) 0).trace ++
        [(18, line 0), (16, line 1), (15, line 2), (17, line 3),
         (9, line 4), (11, line 5), (12, line 6), (10, line 7),
         (38, line 8), (36, line 9), (35, line 10), (37, line 11),
         (13, line 12), (21, line 13), (33, line 14), (14, line 15)] ∧
      (printTime 23 59 (boot (fun _ => none) (fun _ => none) 0)).trace.length =
        (boot (fun _ => none) (fun _ => none) 0).trace.length + 16 ∧
      ∀ g, g < 4 → ∀ d, (digits 23 59)[g]? = some d →
        (∀ k, k < 4 → line (4 * g + k) = Int.land (Int.shiftRight d k) 1) ∧
        line (4 * g) + 2 * line (4 * g + 1) + 4 * line (4 * g + 2) + 8 * line (4 * g + 3) = d :=
  printTime_lines_lsb_first 23 59 (by decide) (by decide) _

/-! ## Connectivity state machine -/

/-- C2: whatever `softAPActive` was, one iteration of `loop` whose two connectivity checks
    both read `c` ends with `softAPActive = !c`, and the access point follows the flag: a
    cycle that began with the access point up and reads connected calls
    `WiFi.softAPdisconnect` and `WiFi.mode(WIFI_STA)`; a cycle that began with it down and
    reads disconnected calls `WiFi.softAPsetHostname`, `WiFi.mode(WIFI_AP_STA)` and
    `WiFi.softAP(APID, APSK)`; any other cycle makes no access point call. -/
theorem loop_softAPActive_eq_not_connected (c : Bool) (obs : LoopObs) (w : World)
    (h1 : obs.connected1 = c) (h2 : obs.connected2 = c) :
    (loop obs w).softAPActive = !c ∧
    (loop obs w).trace = w.trace ++
      (if w.softAPActive && c then
        [Event.serial "Internet Connected. Tearing down AP.", Event.softAPdisconnect,
         Event.wifiMode WiFiMode.WIFI_STA, Event.timeClientUpdate]
      else if !w.softAPActive && !c then
        [Event.serial "Lost Internet. Restarting AP.", Event.softAPsetHostname "nixeclock",
         Event.wifiMode WiFiMode.WIFI_AP_STA, Event.softAP APID APSK]
      else []) ++
      (if resyncDue obs.epochMinutes obs.epochSeconds then
        [Event.timeClientUpdate, Event.delay 1000] else []) ++
      printTimeCalls (tm_hour obs.epochNow obs.utcOffset)
        (tm_min obs.epochNow obs.utcOffset) := by
  constructor
  · rw [loop_softAPActive, h1, h2]
    cases w.softAPActive <;> cases c <;> rfl
  · rw [loop_trace, connectivity_trace_same c obs w h1 h2]

theorem loop_softAPActive_eq_not_connected_witness :
    ((loop ⟨true, true, 60, 60, 60, 0⟩ apOnly).softAPActive = !true ∧
      (loop ⟨true, true, 60, 60, 60, 0⟩ apOnly).trace = apOnly.trace ++
        (if apOnly.softAPActive && true then
          [Event.serial "Internet Connected. Tearing down AP.", Event.softAPdisconnect,
           Event.wifiMode WiFiMode.WIFI_STA, Event.timeClientUpdate]
        else if !apOnly.softAPActive && !true then
          [Event.serial "Lost Internet. Restarting AP.", Event.softAPsetHostname "nixeclock",
           Event.wifiMode WiFiMode.WIFI_AP_STA, Event.softAP APID APSK]
        else []) ++
        (if resyncDue 60 60 then [Event.timeClientUpdate, Event.delay 1000] else []) ++
        printTimeCalls (tm_hour 60 0) (tm_min 60 0)) ∧
    ((loop ⟨false, false, 120, 120, 120, 0⟩
        (loop ⟨true, true, 60, 60, 60, 0⟩ apOnly)).softAPActive = !false ∧
      (loop ⟨false, false, 120, 120, 120, 0⟩ (loop ⟨true, true, 60, 60, 60, 0⟩ apOnly)).trace =
        (loop ⟨true, true, 60, 60, 60, 0⟩ apOnly).trace ++
        (if (loop ⟨true, true, 60, 60, 60, 0⟩ apOnly).softAPActive && false then
          [Event.serial "Internet Connected. Tearing down AP.", Event.softAPdisconnect,
           Event.wifiMode WiFiMode.WIFI_STA, Event.timeClientUpdate]
        else if !(loop ⟨true, true, 60, 60, 60, 0⟩ apOnly).softAPActive && !false then
          [Event.serial "Lost Internet. Restarting AP.", Event.softAPsetHostname "nixeclock",
           Event.wifiMode WiFiMode.WIFI_AP_STA, Event.softAP APID APSK]
        else []) ++
        (if resyncDue 120 120 then [Event.timeClientUpdate, Event.delay 1000] else []) ++
        printTimeCalls (tm_hour 120 0) (tm_min 120 0)) :=
  ⟨loop_softAPActive_eq_not_connected true ⟨true, true, 60, 60, 60, 0⟩ apOnly rfl rfl,
   loop_softAPActive_eq_not_connected false ⟨false, false, 120, 120, 120, 0⟩
     (loop ⟨true, true, 60, 60, 60, 0⟩ apOnly) rfl rfl⟩

theorem wifiBegin_not_mem_setupOpening (w : World) (s p : String) :
    Event.wifiBegin s p ∉ setupOpening w := by
  simp [setupOpening]

theorem wifiBegin_not_mem_setupClosing (s p : String) : Event.wifiBegin s p ∉ setupClosing := by
  simp [setupClosing]

/-- C3: at boot a client connection is attempted (`WiFi.begin` is called) exactly when the
    stored SSID and the stored PSK both differ from `GARBAGE_STRING`; and when `setup` is
    done `softAPActive` is false exactly when an attempt was made and `WiFi.isConnected()`
    holds after the bounded wait (line 116); in every other case it is true. -/
theorem setup_attempt_and_flag (obs : SetupObs) (strings : String → Option String)
    (ints : String → Option Int) (millis : Nat) :
    ((∃ s p, Event.wifiBegin s p ∈ (setup obs (boot strings ints millis)).trace) ↔
      ((boot strings ints millis).getString "WiFiSSID" GARBAGE_STRING ≠ GARBAGE_STRING ∧
       (boot strings ints millis).getString "WiFiPSK" GARBAGE_STRING ≠ GARBAGE_STRING)) ∧
    ((setup obs (boot strings ints millis)).softAPActive = false ↔
      ((∃ s p, Event.wifiBegin s p ∈ (setup obs (boot strings ints millis)).trace) ∧
        obs.connected = true)) ∧
    ((setup obs (boot strings ints millis)).softAPActive = true ↔
      ¬ ((∃ s p, Event.wifiBegin s p ∈ (setup obs (boot strings ints millis)).trace) ∧
        obs.connected = true)) := by
  by_cases h : (boot strings ints millis).getString "WiFiSSID" GARBAGE_STRING = GARBAGE_STRING
      ∨ (boot strings ints millis).getString "WiFiPSK" GARBAGE_STRING = GARBAGE_STRING
  · obtain ⟨hf, ht⟩ := setup_unconfigured obs _ h
    have hno : ¬ ∃ s p, Event.wifiBegin s p ∈ (setup obs (boot strings ints millis)).trace := by
      rintro ⟨s, p, hmem⟩
      rw [ht] at hmem
      simp [boot, wifiBegin_not_mem_setupOpening, wifiBegin_not_mem_setupClosing] at hmem
    refine ⟨⟨fun hex => absurd hex hno, fun hne => ?_⟩, ?_, ?_⟩
    · rcases h with h | h
      · exact absurd h hne.1
      · exact absurd h hne.2
    · rw [hf]; simp [hno]
    · rw [hf]; simp [hno]
  · obtain ⟨hf, evs, -, ht⟩ := setup_configured obs _ h
    have hyes : ∃ s p, Event.wifiBegin s p ∈ (setup obs (boot strings ints millis)).trace :=
      ⟨(boot strings ints millis).getString "WiFiSSID" GARBAGE_STRING,
        (boot strings ints millis).getString "WiFiPSK" GARBAGE_STRING, by rw [ht]; simp⟩
    refine ⟨⟨fun _ => not_or.mp h, fun _ => hyes⟩, ?_, ?_⟩
    · rw [hf]; simp [hyes]
    · rw [hf]; simp [hyes]

/-- C4: booting with the SSID or the PSK unset and reading not-connected in every check of
    every cycle, `softAPActive` is true after `setup` and after each of any number `n` of
    `loop` iterations, and the access point is never torn down (`WiFi.softAPdisconnect` is
    never called). -/
theorem ap_stays_active_without_credentials (sobs : SetupObs) (obs : Nat → LoopObs)
    (strings : String → Option String) (ints : String → Option Int) (millis : Nat) (n : Nat)
    (hcred : (boot strings ints millis).getString "WiFiSSID" GARBAGE_STRING = GARBAGE_STRING
      ∨ (boot strings ints millis).getString "WiFiPSK" GARBAGE_STRING = GARBAGE_STRING)
    (hdown : ∀ i, (obs i).connected1 = false ∧ (obs i).connected2 = false) :
    (run obs n (setup sobs (boot strings ints millis))).softAPActive = true ∧
    Event.softAPdisconnect ∉ (run obs n (setup sobs (boot strings ints millis))).trace := by
  induction n with
  | zero =>
    obtain ⟨hf, ht⟩ := setup_unconfigured sobs _ hcred
    refine ⟨hf, ?_⟩
    simp only [run]
    rw [ht]
    simp [boot, softAPdisconnect_not_mem_setupOpening, softAPdisconnect_not_mem_setupClosing]
  | succ n ih =>
    obtain ⟨hf, hnot⟩ := ih
    simp only [run]
    constructor
    · rw [loop_softAPActive, hf, (hdown n).1, (hdown n).2]
      rfl
    · rw [loop_trace, connectivity_trace_idle _ _ hf (hdown n).1]
      have := softAPdisconnect_not_mem_printTimeCalls
        (tm_hour (obs n).epochNow (obs n).utcOffset) (tm_min (obs n).epochNow (obs n).utcOffset)
      split <;> simp [hnot, this]

theorem ap_stays_active_without_credentials_witness :
    (run (fun _ => ⟨false, false, 0, 0, 0, 0⟩) 3
      (setup ⟨fun _ => false, false⟩ (boot (fun _ => none) (fun _ => none) 0))).softAPActive
      = true ∧
    Event.softAPdisconnect ∉ (run (fun _ => ⟨false, false, 0, 0, 0, 0⟩) 3
      (setup ⟨fun _ => false, false⟩ (boot (fun _ => none) (fun _ => none) 0))).trace :=
  ap_stays_active_without_credentials ⟨fun _ => false, false⟩
    (fun _ => ⟨false, false, 0, 0, 0, 0⟩) (fun _ => none) (fun _ => none) 0 3
    (Or.inl rfl) (fun _ => ⟨rfl, rfl⟩)

/-- C5: an iteration of `loop` that starts with `softAPActive` true and reads the client as
    connected on line 231 tears the access point down, sets `softAPActive` to false and calls
    `timeClient.update` right after the teardown, before the `digitalWrite`s of `printTime`
    (whatever line 240 reads; the iteration ends with `softAPActive = !connected2`);
    and whenever `setup` ends with the access point torn down, the teardown is followed by
    `timeClient.begin` and `timeClient.update` before `setup` returns. -/
theorem connect_triggers_sync :
    (∀ (obs : LoopObs) (w : World), w.softAPActive = true → obs.connected1 = true →
      (teardownOnConnect obs w).softAPActive = false ∧
      (teardownOnConnect obs w).trace = w.trace ++
        [Event.serial "Internet Connected. Tearing down AP.", Event.softAPdisconnect,
         Event.wifiMode WiFiMode.WIFI_STA, Event.timeClientUpdate] ∧
      (loop obs w).trace = w.trace ++
        [Event.serial "Internet Connected. Tearing down AP.", Event.softAPdisconnect,
         Event.wifiMode WiFiMode.WIFI_STA, Event.timeClientUpdate] ++
        (if obs.connected2 then []
         else [Event.serial "Lost Internet. Restarting AP.", Event.softAPsetHostname "nixeclock",
           Event.wifiMode WiFiMode.WIFI_AP_STA, Event.softAP APID APSK]) ++
        (if resyncDue obs.epochMinutes obs.epochSeconds then
          [Event.timeClientUpdate, Event.delay 1000] else []) ++
        printTimeCalls (tm_hour obs.epochNow obs.utcOffset)
          (tm_min obs.epochNow obs.utcOffset) ∧
      (loop obs w).softAPActive = !obs.connected2) ∧
    (∀ (sobs : SetupObs) (strings : String → Option String) (ints : String → Option Int)
      (millis : Nat), (setup sobs (boot strings ints millis)).softAPActive = false →
      ∃ pre post, (setup sobs (boot strings ints millis)).trace = pre ++
        [Event.softAPdisconnect, Event.wifiMode WiFiMode.WIFI_STA,
         Event.timeClientBegin, Event.timeClientUpdate] ++ post) := by
  refine ⟨fun obs w hs h1 => ⟨(teardownOnConnect_spec obs w hs h1).1,
    (teardownOnConnect_spec obs w hs h1).2, ?_, ?_⟩, fun sobs strings ints millis hboot => ?_⟩
  · rw [loop_trace, connectivity_trace_teardown obs w hs h1]
  · rw [loop_softAPActive, hs, h1]
    rfl
  · by_cases h : (boot strings ints millis).getString "WiFiSSID" GARBAGE_STRING = GARBAGE_STRING
        ∨ (boot strings ints millis).getString "WiFiPSK" GARBAGE_STRING = GARBAGE_STRING
    · rw [(setup_unconfigured sobs _ h).1] at hboot
      exact absurd hboot (by decide)
    · obtain ⟨hf, evs, -, ht⟩ := setup_configured sobs _ h
      rw [hf] at hboot
      have hc : sobs.connected = true := by simpa using hboot
      rw [ht, hc]
      refine ⟨(boot strings ints millis).trace ++ setupOpening (boot strings ints millis) ++
          [Event.serial "WiFi Configured. Attempting Connection.", Event.setHostname "niceclock",
           Event.wifiBegin ((boot strings ints millis).getString "WiFiSSID" GARBAGE_STRING)
             ((boot strings ints millis).getString "WiFiPSK" GARBAGE_STRING)] ++ evs ++
          [Event.serial "", Event.serial "\nConnection Success. Tearing down AP."],
        setupClosing.drop 2, ?_⟩
      simp [setupOutcome, setupClosing]

theorem homeNet_configured :
    ¬ ((boot homeNet (fun _ => none) 0).getString "WiFiSSID" GARBAGE_STRING = GARBAGE_STRING
      ∨ (boot homeNet (fun _ => none) 0).getString "WiFiPSK" GARBAGE_STRING = GARBAGE_STRING) := by
  simp [boot, World.getString, homeNet, GARBAGE_STRING]

theorem homeNet_boot_flag :
    (setup ⟨fun _ => true, true⟩ (boot homeNet (fun _ => none) 0)).softAPActive = false :=
  (setup_configured ⟨fun _ => true, true⟩ _ homeNet_configured).1

theorem connect_triggers_sync_witness :
    (apOnly.softAPActive = true ∧
      (teardownOnConnect ⟨true, false, 1800, 1800, 1800, 0⟩ apOnly).softAPActive = false ∧
      (teardownOnConnect ⟨true, false, 1800, 1800, 1800, 0⟩ apOnly).trace = apOnly.trace ++
        [Event.serial "Internet Connected. Tearing down AP.", Event.softAPdisconnect,
         Event.wifiMode WiFiMode.WIFI_STA, Event.timeClientUpdate] ∧
      (loop ⟨true, false, 1800, 1800, 1800, 0⟩ apOnly).trace = apOnly.trace ++
        [Event.serial "Internet Connected. Tearing down AP.", Event.softAPdisconnect,
         Event.wifiMode WiFiMode.WIFI_STA, Event.timeClientUpdate] ++
        (if false then []
         else [Event.serial "Lost Internet. Restarting AP.", Event.softAPsetHostname "nixeclock",
           Event.wifiMode WiFiMode.WIFI_AP_STA, Event.softAP APID APSK]) ++
        (if resyncDue 1800 1800 then [Event.timeClientUpdate, Event.delay 1000] else []) ++
        printTimeCalls (tm_hour 1800 0) (tm_min 1800 0) ∧
      (loop ⟨true, false, 1800, 1800, 1800, 0⟩ apOnly).softAPActive = !false) ∧
    (setup ⟨fun _ => true, true⟩ (boot homeNet (fun _ => none) 0)).softAPActive = false ∧
    (∃ pre post, (setup ⟨fun _ => true, true⟩ (boot homeNet (fun _ => none) 0)).trace = pre ++
        [Event.softAPdisconnect, Event.wifiMode WiFiMode.WIFI_STA,
         Event.timeClientBegin, Event.timeClientUpdate] ++ post) :=
  ⟨⟨rfl, connect_triggers_sync.1 ⟨true, false, 1800, 1800, 1800, 0⟩ apOnly rfl rfl⟩,
    homeNet_boot_flag,
    connect_triggers_sync.2 ⟨fun _ => true, true⟩ homeNet (fun _ => none) 0 homeNet_boot_flag⟩

/-! ## Time synchronisation policy -/

/-- C6: the condition of line 250 holds at epoch 0 and again at epoch 3600, and in every
    window of 86400 consecutive epoch seconds it holds 24 times, once per hour. -/
theorem resync_due_every_hour :
    resyncDue 0 0 = true ∧ resyncDue 3600 3600 = true ∧
    ∀ s : Nat, ((Finset.Ico s (s + 86400)).filter fun e => resyncDue e e = true).card = 24 := by
  refine ⟨by decide, by decide, fun s => ?_⟩
  have hp : Function.Periodic (fun e : Nat => e ≡ 0 [MOD 3600]) 86400 := by
    intro e
    simp only [Nat.ModEq, eq_iff_iff]
    omega
  have hfilter : ((Finset.Ico s (s + 86400)).filter fun e => resyncDue e e = true) =
      (Finset.Ico s (s + 86400)).filter fun e : Nat => e ≡ 0 [MOD 3600] := by
    apply Finset.filter_congr
    intro e _
    rw [resyncDue_iff]
    rfl
  rw [hfilter, Nat.filter_Ico_card_eq_of_periodic s 86400 _ hp,
    Nat.count_modEq_card 86400 (by decide) 0]
  decide

/-- C7 as stated fails: with a UTC offset of +05:30 (19800 s) the epoch 1800 reads 06:00:00
    local time, yet the iteration that observes it calls `timeClient.update` not at all. -/
theorem local_top_of_hour_without_sync :
    tm_hour 1800 19800 = 6 ∧ tm_min 1800 19800 = 0 ∧ tm_sec 1800 19800 = 0 ∧
    Event.timeClientUpdate ∉ (loop ⟨false, false, 1800, 1800, 1800, 19800⟩ apOnly).trace := by
  refine ⟨by decide, by decide, by decide, ?_⟩
  rw [loop_trace, connectivity_trace_idle _ _ rfl rfl]
  have h : resyncDue 1800 1800 = false := by decide
  simp [h, apOnly, timeClientUpdate_not_mem_printTimeCalls]

/-- C7, amended: when the UTC offset is a whole number of hours and the local time of epoch
    `e` reads HH:00:00, the iteration that observes `e` issues the periodic
    `timeClient.update` followed by the one-second pause, and an iteration that observes an
    epoch between 1 second and less than one hour later issues no periodic update. -/
theorem periodic_sync_once_per_occurrence (obs next : LoopObs) (w w' : World) (e e' : Nat)
    (hzone : obs.utcOffset % 3600 = 0)
    (hlocal : tm_min e obs.utcOffset = 0 ∧ tm_sec e obs.utcOffset = 0)
    (hobs : obs.epochMinutes = e ∧ obs.epochSeconds = e)
    (hnext : next.epochMinutes = e' ∧ next.epochSeconds = e')
    (hlater : e + 1 ≤ e' ∧ e' < e + 3600) :
    (loop obs w).trace = (connectivity obs w).trace ++
        [Event.timeClientUpdate, Event.delay 1000] ++
        printTimeCalls (tm_hour obs.epochNow obs.utcOffset)
          (tm_min obs.epochNow obs.utcOffset) ∧
    (loop next w').trace = (connectivity next w').trace ++
        printTimeCalls (tm_hour next.epochNow next.utcOffset)
          (tm_min next.epochNow next.utcOffset) := by
  have he : e % 3600 = 0 := by
    obtain ⟨hm, hsec⟩ := hlocal
    simp only [tm_min, tm_sec, localSecondOfDay] at hm hsec
    omega
  have hdue : resyncDue obs.epochMinutes obs.epochSeconds = true := by
    rw [hobs.1, hobs.2]
    exact (resyncDue_iff e).2 he
  have hnot : resyncDue next.epochMinutes next.epochSeconds = false := by
    rw [hnext.1, hnext.2]
    cases hd : resyncDue e' e' with
    | false => rfl
    | true =>
      have := (resyncDue_iff e').1 hd
      omega
  constructor
  · rw [loop_trace, hdue]
    rfl
  · rw [loop_trace, hnot]
    simp

theorem periodic_sync_once_per_occurrence_witness :
    (loop ⟨false, false, 7200, 7200, 7200, 3600⟩ apOnly).trace =
        (connectivity ⟨false, false, 7200, 7200, 7200, 3600⟩ apOnly).trace ++
        [Event.timeClientUpdate, Event.delay 1000] ++
        printTimeCalls (tm_hour 7200 3600) (tm_min 7200 3600) ∧
    (loop ⟨false, false, 7201, 7201, 7201, 3600⟩ apOnly).trace =
        (connectivity ⟨false, false, 7201, 7201, 7201, 3600⟩ apOnly).trace ++
        printTimeCalls (tm_hour 7201 3600) (tm_min 7201 3600) :=
  periodic_sync_once_per_occurrence ⟨false, false, 7200, 7200, 7200, 3600⟩
    ⟨false, false, 7201, 7201, 7201, 3600⟩ apOnly apOnly 7200 7201
    (by decide) (by decide) ⟨rfl, rfl⟩ ⟨rfl, rfl⟩ (by decide)

/-! ## Configuration portal -/

/-- C9 as stated fails: a brightness request with the slider values "abc" and "xyz", which
    `String::toInt` reads as 0, overwrites the stored limits 50 and 200 with 0 and 0; and
    whatever `String::toInt` returns for "abc", there is a store that the request changes. -/
theorem non_numeric_brightness_is_stored :
    arduinoToInt "abc" = 0 ∧ arduinoToInt "xyz" = 0 ∧
    dimmed.ints "minBrightness" = some 50 ∧ dimmed.ints "maxBrightness" = some 200 ∧
    (updateBrightness arduinoToInt notNumbers dimmed).ints "minBrightness" = some 0 ∧
    (updateBrightness arduinoToInt notNumbers dimmed).ints "maxBrightness" = some 0 ∧
    (∀ toInt : String → Int, ∃ w : World,
      (updateBrightness toInt notNumbers w).ints "minBrightness" ≠ w.ints "minBrightness") := by
  refine ⟨by decide, by decide, by decide, by decide, ?_, ?_, fun toInt => ?_⟩
  · simp [updateBrightness, World.putInt, World.emit, Request.hasParam, Request.getParam,
      notNumbers, show arduinoToInt "abc" = 0 by decide]
  · simp [updateBrightness, World.putInt, World.emit, Request.hasParam, Request.getParam,
      notNumbers, show arduinoToInt "xyz" = 0 by decide]
  · refine ⟨{ dimmed with ints := fun _ => some (toInt "abc" + 1) }, ?_⟩
    simp [updateBrightness, World.putInt, World.emit, Request.hasParam, Request.getParam,
      notNumbers]

/-- C9, amended: a credential request whose ssid is empty changes nothing in the store and
    starts no connection attempt (it only logs and answers 200); a brightness request that
    carries both sliders sets the stored `minBrightness` and `maxBrightness` to
    `String::toInt` of the submitted values, whatever the text is and whatever `toInt` makes
    of it, and leaves every other key alone; a brightness request that lacks a slider leaves
    the store as it was. -/
theorem portal_updates :
    (∀ (request : Request) (w : World), request.getParam "ssid" = "" →
      (updateWiFi request w).strings = w.strings ∧ (updateWiFi request w).ints = w.ints ∧
      (updateWiFi request w).trace = w.trace ++
        [Event.serial "Request Received", Event.send 200]) ∧
    (∀ (toInt : String → Int) (request : Request) (w : World),
      request.hasParam "minBrightnessSlider" = true →
      request.hasParam "maxBrightnessSlider" = true →
      (updateBrightness toInt request w).ints "minBrightness" =
        some (toInt (request.getParam "minBrightnessSlider")) ∧
      (updateBrightness toInt request w).ints "maxBrightness" =
        some (toInt (request.getParam "maxBrightnessSlider")) ∧
      (∀ key, key ≠ "minBrightness" → key ≠ "maxBrightness" →
        (updateBrightness toInt request w).ints key = w.ints key) ∧
      (updateBrightness toInt request w).strings = w.strings ∧
      (updateBrightness toInt request w).trace = w.trace ++
        [Event.serial "Request Received", Event.send 200]) ∧
    (∀ (toInt : String → Int) (request : Request) (w : World),
      ¬ (request.hasParam "minBrightnessSlider" = true ∧
         request.hasParam "maxBrightnessSlider" = true) →
      (updateBrightness toInt request w).ints = w.ints ∧
      (updateBrightness toInt request w).strings = w.strings ∧
      (updateBrightness toInt request w).trace = w.trace ++
        [Event.serial "Request Received", Event.send 200]) := by
  refine ⟨fun request w h => ?_, fun toInt request w h1 h2 => ?_, fun toInt request w h => ?_⟩
  · unfold updateWiFi
    simp only [h, ne_eq, not_true_eq_false, if_false, ite_self]
    simp [World.emit]
  · refine ⟨?_, ?_, fun key hmin hmax => ?_, ?_, ?_⟩ <;>
      simp [updateBrightness, h1, h2, World.putInt, World.emit, *]
  · have h' : (request.hasParam "minBrightnessSlider" && request.hasParam "maxBrightnessSlider")
        = false := by
      cases h1 : request.hasParam "minBrightnessSlider" <;>
        cases h2 : request.hasParam "maxBrightnessSlider" <;> simp_all
    simp [updateBrightness, h', World.emit]

theorem portal_updates_witness :
    (emptySsid.getParam "ssid" = "" ∧
      (updateWiFi emptySsid dimmed).strings = dimmed.strings ∧
      (updateWiFi emptySsid dimmed).ints = dimmed.ints ∧
      (updateWiFi emptySsid dimmed).trace = dimmed.trace ++
        [Event.serial "Request Received", Event.send 200]) ∧
    (sliders10to90.hasParam "minBrightnessSlider" = true ∧
      sliders10to90.hasParam "maxBrightnessSlider" = true ∧
      (updateBrightness arduinoToInt sliders10to90 dimmed).ints "minBrightness" =
        some (arduinoToInt (sliders10to90.getParam "minBrightnessSlider")) ∧
      (updateBrightness arduinoToInt sliders10to90 dimmed).ints "maxBrightness" =
        some (arduinoToInt (sliders10to90.getParam "maxBrightnessSlider")) ∧
      (∀ key, key ≠ "minBrightness" → key ≠ "maxBrightness" →
        (updateBrightness arduinoToInt sliders10to90 dimmed).ints key = dimmed.ints key) ∧
      (updateBrightness arduinoToInt sliders10to90 dimmed).strings = dimmed.strings ∧
      (updateBrightness arduinoToInt sliders10to90 dimmed).trace = dimmed.trace ++
        [Event.serial "Request Received", Event.send 200]) ∧
    (¬ (emptySsid.hasParam "minBrightnessSlider" = true ∧
        emptySsid.hasParam "maxBrightnessSlider" = true) ∧
      (updateBrightness arduinoToInt emptySsid dimmed).ints = dimmed.ints ∧
      (updateBrightness arduinoToInt emptySsid dimmed).strings = dimmed.strings ∧
      (updateBrightness arduinoToInt emptySsid dimmed).trace = dimmed.trace ++
        [Event.serial "Request Received", Event.send 200]) :=
  ⟨⟨by decide, portal_updates.1 emptySsid dimmed (by decide)⟩,
   ⟨by decide, by decide,
    portal_updates.2.1 arduinoToInt sliders10to90 dimmed (by decide) (by decide)⟩,
   ⟨by decide, portal_updates.2.2 arduinoToInt emptySsid dimmed (by decide)⟩⟩

/-! ## Output pins -/

/-- C10: the 16 pins `printTime` writes are pairwise distinct, so after a call every pin
    holds the value of its own `digitalWrite`; each of them is in `hours_pin` or
    `minutes_pin` and is set to OUTPUT by `setup`; and every pin of `hours_pin` and
    `minutes_pin` is written by `printTime`. -/
theorem printTime_pins (hours minutes : Int) (w : World) (sobs : SetupObs) (w0 : World) :
    (printTimePins hours minutes).length = 16 ∧
    (printTimePins hours minutes).Nodup ∧
    (∀ pv ∈ writes (printTimeCalls hours minutes),
      pinLevel (printTime hours minutes w).trace pv.1 = some pv.2) ∧
    (∀ pin ∈ printTimePins hours minutes, pin ∈ hours_pin ∨ pin ∈ minutes_pin) ∧
    (∀ pin ∈ printTimePins hours minutes, pin ∈ outputPins (setup sobs w0).trace) ∧
    (∀ pin ∈ hours_pin ++ minutes_pin, pin ∈ printTimePins hours minutes) := by
  have hpins : printTimePins hours minutes =
      [18, 16, 15, 17, 9, 11, 12, 10, 38, 36, 35, 37, 13, 21, 33, 14] := by
    simp [printTimePins, printTimeCalls, printTime, World.emit, boot, writes]
  have hout : ∀ pin ∈ outputPins (setupOpening w0), pin ∈ outputPins (setup sobs w0).trace := by
    intro pin hmem
    by_cases h : w0.getString "WiFiSSID" GARBAGE_STRING = GARBAGE_STRING
        ∨ w0.getString "WiFiPSK" GARBAGE_STRING = GARBAGE_STRING
    · rw [(setup_unconfigured sobs w0 h).2]
      simp only [outputPins, List.filterMap_append, List.mem_append] at hmem ⊢
      exact Or.inl (Or.inl (Or.inr hmem))
    · obtain ⟨-, evs, -, ht⟩ := setup_configured sobs w0 h
      rw [ht]
      simp only [outputPins, List.filterMap_append, List.mem_append] at hmem ⊢
      exact Or.inl (Or.inl (Or.inl (Or.inl (Or.inr hmem))))
  refine ⟨by rw [hpins]; rfl, by rw [hpins]; decide, ?_, ?_, ?_, ?_⟩
  · intro pv hpv
    rw [printTime_trace]
    simp only [pinLevel, writes, List.filterMap_append, List.reverse_append]
    simp [printTimeCalls, printTime, World.emit, boot, writes] at hpv ⊢
    rcases hpv with h | h | h | h | h | h | h | h | h | h | h | h | h | h | h | h <;>
      subst h <;> simp [List.lookup]
  · rw [hpins]
    decide
  · intro pin hmem
    apply hout
    rw [hpins] at hmem
    simp only [List.mem_cons, List.mem_singleton, List.not_mem_nil, or_false] at hmem
    rcases hmem with h | h | h | h | h | h | h | h | h | h | h | h | h | h | h | h <;>
      subst h <;> simp [outputPins, setupOpening]
  · rw [hpins]
    simp only [hours_pin, minutes_pin]
    decide

end NixieClock
